import Mathlib

/-!
Verification development for the api-sentinel backend (src/main.py, src/models.py).

The service is shallowly embedded: the relational store is a record of lists
of rows, request handlers are pure functions from the store (plus the inputs
FastAPI would inject: header values, the authenticated user id, the wall-clock
"now", and fresh row ids) to `Except PyError` results, and Python exceptions
are values of `PyError`.  Timestamps are modelled as calendar datetimes at
second granularity (Python `datetime` without microseconds); `float` costs are
modelled as rationals.
-/

namespace ApiSentinel

/-- Python-level exceptions that the handlers can surface.  `httpError` models
`fastapi.HTTPException(status_code, detail)`; `typeError` models a `TypeError`
raised by calling a constructor with an unexpected keyword argument;
`attributeError` models an `AttributeError` from dereferencing `None`. -/
inductive PyError where
  | httpError (status : Nat) (detail : String)
  | typeError (msg : String)
  | attributeError (msg : String)
deriving DecidableEq

/-- A Python `datetime` at second granularity (the code never inspects
microseconds except to zero them in `replace`). -/
structure PyDateTime where
  year : Nat
  month : Nat
  day : Nat
  hour : Nat
  minute : Nat
  second : Nat
deriving DecidableEq

/-- Gregorian leap-year rule, as Python's `calendar`/`datetime` use. -/
def isLeap (y : Nat) : Bool := (y % 4 == 0 && y % 100 != 0) || y % 400 == 0

/-- Number of days in month `m` of year `y` (months numbered 1..12). -/
def daysInMonth (y m : Nat) : Nat :=
  if m == 2 then (if isLeap y then 29 else 28)
  else if m == 4 || m == 6 || m == 9 || m == 11 then 30
  else 31

/-- Injective linearisation of a valid datetime (month < 13, day < 32,
hour < 24, minute < 60, second < 60); order-isomorphic to Python's
field-lexicographic `datetime` comparison on valid datetimes. -/
def dtVal (t : PyDateTime) : Nat :=
  ((((t.year * 13 + t.month) * 32 + t.day) * 24 + t.hour) * 60 + t.minute) * 60 + t.second

/-- `a <= b` on datetimes, as the database evaluates `timestamp >= start_of_month`. -/
def dtLe (a b : PyDateTime) : Bool := dtVal a ≤ dtVal b

/-- Strict `a < b` on datetimes. -/
def dtLt (a b : PyDateTime) : Bool := dtVal a < dtVal b

/-- `now.replace(day=1, hour=0, minute=0, second=0, microsecond=0)` from
`get_key_details` and `get_project_stats`. -/
def startOfMonth (now : PyDateTime) : PyDateTime :=
  ⟨now.year, now.month, 1, 0, 0, 0⟩

/-- Fuel-driven normalisation of an overflowing day-of-month: while the day
exceeds the current month's length, move to the next month.  With fuel at
least the day value this computes Python's calendar day addition. -/
def rollForward : Nat → Nat → Nat → Nat → Nat × Nat × Nat
  | 0, y, m, d => (y, m, d)
  | fuel + 1, y, m, d =>
    if d ≤ daysInMonth y m then (y, m, d)
    else if m == 12 then rollForward fuel (y + 1) 1 (d - daysInMonth y m)
    else rollForward fuel y (m + 1) (d - daysInMonth y m)

/-- `t + timedelta(days=n)` for a Python datetime. -/
def addDays (t : PyDateTime) (n : Nat) : PyDateTime :=
  let r := rollForward (t.day + n) t.year t.month (t.day + n)
  ⟨r.1, r.2.1, r.2.2, t.hour, t.minute, t.second⟩

/-- `t.replace(day=1)` (time-of-day fields untouched). -/
def replaceDay1 (t : PyDateTime) : PyDateTime :=
  ⟨t.year, t.month, 1, t.hour, t.minute, t.second⟩

/-- `t - timedelta(seconds=1)` for a valid Python datetime. -/
def subOneSecond (t : PyDateTime) : PyDateTime :=
  if t.second > 0 then ⟨t.year, t.month, t.day, t.hour, t.minute, t.second - 1⟩
  else if t.minute > 0 then ⟨t.year, t.month, t.day, t.hour, t.minute - 1, 59⟩
  else if t.hour > 0 then ⟨t.year, t.month, t.day, t.hour - 1, 59, 59⟩
  else if t.day > 1 then ⟨t.year, t.month, t.day - 1, 23, 59, 59⟩
  else if t.month > 1 then ⟨t.year, t.month - 1, daysInMonth t.year (t.month - 1), 23, 59, 59⟩
  else ⟨t.year - 1, 12, 31, 23, 59, 59⟩

/-- The first instant of the month after `t`'s month (spec-side description
used to compare against the code's `(start + 32 days).replace(day=1)`). -/
def firstOfNextMonth (t : PyDateTime) : PyDateTime :=
  if t.month == 12 then ⟨t.year + 1, 1, 1, 0, 0, 0⟩ else ⟨t.year, t.month + 1, 1, 0, 0, 0⟩

/-- The last second-granularity instant of `t`'s month (spec-side description). -/
def lastInstantOfMonth (t : PyDateTime) : PyDateTime :=
  ⟨t.year, t.month, daysInMonth t.year t.month, 23, 59, 59⟩

/-- `(start_of_month + timedelta(days=32)).replace(day=1) - timedelta(seconds=1)`,
the `usage_end_date` computed by `get_project_stats`. -/
def usageEndDate (now : PyDateTime) : PyDateTime :=
  subOneSecond (replaceDay1 (addDays (startOfMonth now) 32))

/-- Row of the `sentinel_keys` table (src/models.py, class SentinelKey). -/
structure SentinelKeyRec where
  id : Nat
  key_string : String
  project_id : Nat
  monthly_budget_rupees : Int
  is_active : Bool
deriving DecidableEq

/-- Row of the `projects` table (src/models.py, class Project). -/
structure ProjectRec where
  id : Nat
  name : String
  owner_id : Nat
deriving DecidableEq

/-- Row of the `usage_logs` table (src/models.py, class UsageLog).  Metadata is
an opaque key-value bag; `timestamp` is the server-set insertion time. -/
structure UsageLogRec where
  id : Nat
  sentinel_key_id : Nat
  cost_rupees : Rat
  usage_metadata : List (String × String)
  timestamp : PyDateTime
deriving DecidableEq

/-- The committed state of the relational store. -/
structure DB where
  projects : List ProjectRec
  sentinel_keys : List SentinelKeyRec
  usage_logs : List UsageLogRec
deriving DecidableEq

/-- `db.query(SentinelKey).filter(SentinelKey.key_string == x).first()`. -/
def lookupKey (db : DB) (x : String) : Option SentinelKeyRec :=
  db.sentinel_keys.find? (fun k => k.key_string == x)

/-- The ORM relationship `project.sentinel_key` (uselist=False): the first key
row whose `project_id` matches, if any. -/
def projectKey (db : DB) (p : ProjectRec) : Option SentinelKeyRec :=
  db.sentinel_keys.find? (fun k => k.project_id == p.id)

/-- The row filter of the usage aggregation query in `get_key_details` and
`get_project_stats`: key matches and `timestamp >= start_of_month` (note: no
upper bound on the timestamp). -/
def monthFilter (kid : Nat) (som : PyDateTime) (l : UsageLogRec) : Bool :=
  l.sentinel_key_id == kid && dtLe som l.timestamp

/-- SQL `func.sum` over the `cost_rupees` column: `NULL` (here `none`) when no
rows match, otherwise the sum. -/
def sqlSumCosts (xs : List UsageLogRec) : Option Rat :=
  match xs with
  | [] => none
  | _ => some ((xs.map (fun l => l.cost_rupees)).sum)

/-- Python `usage_sum or 0.0`: `None` and `0.0` are both falsy and yield `0.0`. -/
def pyOrZero (x : Option Rat) : Rat :=
  match x with
  | none => 0
  | some v => if v = 0 then 0 else v

/-- The `current_usage` value both stats handlers compute for key id `kid`
with month start `som`. -/
def current_usage_of (db : DB) (kid : Nat) (som : PyDateTime) : Rat :=
  pyOrZero (sqlSumCosts (db.usage_logs.filter (monthFilter kid som)))

/-- Modelled from the spec words only (for comparison with the code): the sum
of costs over exactly the events of key `kid` whose timestamp lies in the
half-open window `[som, nextStart)`. -/
def windowUsage (db : DB) (kid : Nat) (som nextStart : PyDateTime) : Rat :=
  ((db.usage_logs.filter
      (fun l => l.sentinel_key_id == kid && dtLe som l.timestamp && dtLt l.timestamp nextStart)).map
    (fun l => l.cost_rupees)).sum

/-- Message of the `TypeError` raised by `HTTPException(status_code=401,
details=...)` in `report_usage`: `details` is not a parameter of
`HTTPException.__init__` (the valid keyword is `detail`), so constructing the
exception to raise already fails. -/
def reportUsageAuthError : PyError :=
  .typeError "HTTPException init got an unexpected keyword argument details"

/-- `POST /v1/usage` (src/main.py, `report_usage`).  `now` is the server-side
insertion timestamp and `newId` the fresh row id.  On success the new usage
log row is committed; on the auth branch the handler evaluates
`HTTPException(status_code=401, details=...)`, which raises `TypeError`. -/
def report_usage (db : DB) (x_sentinel_key : String) (cost : Rat)
    (md : List (String × String)) (now : PyDateTime) (newId : Nat) : Except PyError DB :=
  match lookupKey db x_sentinel_key with
  | none => .error reportUsageAuthError
  | some k =>
    if !k.is_active then .error reportUsageAuthError
    else .ok { db with usage_logs := db.usage_logs ++ [⟨newId, k.id, cost, md, now⟩] }

/-- Response model `SentinelKeyDetails` of `GET /keys/verify`. -/
structure SentinelKeyDetails where
  project_id : Nat
  monthly_budget : Int
  current_usage : Rat
  usd_to_inr_rate : Rat
deriving DecidableEq

/-- `GET /keys/verify` (src/main.py, `get_key_details`).  `rate` is the value
read from the process-wide exchange-rate cache. -/
def get_key_details (db : DB) (x_sentinel_key : String) (now : PyDateTime) (rate : Rat) :
    Except PyError SentinelKeyDetails :=
  match lookupKey db x_sentinel_key with
  | none => .error (.httpError 401 "Invalid or missing API key.")
  | some k =>
    if !k.is_active then .error (.httpError 401 "Invalid or missing API key.")
    else .ok ⟨k.project_id, k.monthly_budget_rupees,
              current_usage_of db k.id (startOfMonth now), rate⟩

/-- Response model `ProjectStats` of `GET /v1/projects/{id}/stats`. -/
structure ProjectStats where
  project_id : Nat
  project_name : String
  monthly_budget : Int
  current_usage : Rat
  usage_start_date : PyDateTime
  usage_end_date : PyDateTime
deriving DecidableEq

/-- `GET /v1/projects/{project_id}/stats` (src/main.py, `get_project_stats`).
When the owned project exists but has no sentinel key, the handler evaluates
`project.sentinel_key.id` on `None`, raising `AttributeError`. -/
def get_project_stats (db : DB) (project_id userId : Nat) (now : PyDateTime) :
    Except PyError ProjectStats :=
  match db.projects.find? (fun p => p.id == project_id && p.owner_id == userId) with
  | none => .error (.httpError 404 "Project not found.")
  | some p =>
    match projectKey db p with
    | none => .error (.attributeError "NoneType object has no attribute id")
    | some k =>
      .ok ⟨p.id, p.name, k.monthly_budget_rupees,
           current_usage_of db k.id (startOfMonth now),
           startOfMonth now, usageEndDate now⟩

/-- Response model `ProjectResponse` of the project endpoints. -/
structure ProjectResponse where
  id : Nat
  name : String
  owner_id : Nat
  sentinel_key : String
deriving DecidableEq

/-- `GET /projects` (src/main.py, `read_user_projects`): lists the caller's
projects, rendering a missing sentinel key as the literal string "N/A". -/
def read_user_projects (db : DB) (userId : Nat) : List ProjectResponse :=
  (db.projects.filter (fun p => p.owner_id == userId)).map (fun p =>
    ⟨p.id, p.name, p.owner_id,
     match projectKey db p with
     | some k => k.key_string
     | none => "N/A"⟩)

/-- The process-wide exchange-rate cache
`exchange_rate_cache = \x7b"rate": 83.50, "last_fetched": None\x7d`. -/
structure ExchangeRateCache where
  rate : Rat
  last_fetched : Option PyDateTime
deriving DecidableEq

/-- The cache value at process startup. -/
def initialCache : ExchangeRateCache := ⟨167 / 2, none⟩

/-- Outcome of one attempt to contact the exchange-rate provider, as
`fetch_and_cache_exchange_rate` distinguishes them: the `EXCHANGERATE_API_KEY`
environment variable is unset; the HTTP request raised `RequestException`
(connection error, timeout, non-2xx status, undecodable JSON body); or a JSON
body was obtained, carrying `conversion_rates.INR` or not. -/
inductive FetchOutcome where
  | missingApiKey
  | requestError
  | responseOk (conversionRatesINR : Option Rat)
deriving DecidableEq

/-- The three failure outcomes named by the spec: missing credential, network
error, malformed or INR-less response. -/
def fetchFailed (out : FetchOutcome) : Bool :=
  match out with
  | .missingApiKey => true
  | .requestError => true
  | .responseOk none => true
  | .responseOk (some _) => false

/-- `fetch_and_cache_exchange_rate` (src/main.py): updates the cache only when
a response with a truthy `INR` entry was obtained (Python `if inr_rate:` skips
the update when the value is 0.0); every other path leaves the cache as it
was.  The function is total: no outcome raises to the caller at the cache
boundary, so readers of the cache always see a complete old or new value. -/
def fetch_and_cache_exchange_rate (out : FetchOutcome) (now : PyDateTime)
    (c : ExchangeRateCache) : ExchangeRateCache :=
  match out with
  | .missingApiKey => c
  | .requestError => c
  | .responseOk none => c
  | .responseOk (some r) => if r == 0 then c else ⟨r, some now⟩

/-- The urlsafe base64 alphabet used by `base64.urlsafe_b64encode`, which
`secrets.token_urlsafe` applies to the random bytes. -/
def b64UrlAlphabet : List Char :=
  "ABCDEFGHIJKLMNOPQRSTUVWXYZabcdefghijklmnopqrstuvwxyz0123456789-_".toList

/-- Character for a six-bit group. -/
def sextetChar (n : Nat) : Char := b64UrlAlphabet.getD n (Char.ofNat 65)

/-- Inverse of `sextetChar` on values below 64. -/
def sextetVal (c : Char) : Nat := b64UrlAlphabet.indexOf c

/-- Base64 regrouping of a byte list into six-bit groups, with the final
partial group padded with zero bits and the `=` padding already stripped, as
`base64.urlsafe_b64encode(...).rstrip(b"=")` produces. -/
def b64Sextets : List Nat → List Nat
  | [] => []
  | [b0] => [b0 / 4, b0 % 4 * 16]
  | [b0, b1] => [b0 / 4, b0 % 4 * 16 + b1 / 16, b1 % 16 * 4]
  | b0 :: b1 :: b2 :: rest =>
      b0 / 4 :: (b0 % 4 * 16 + b1 / 16) :: (b1 % 16 * 4 + b2 / 64) :: b2 % 64 ::
        b64Sextets rest

/-- Recovers the byte list from its six-bit regrouping. -/
def b64Unsextets : List Nat → List Nat
  | [s0, s1] => [s0 * 4 + s1 / 16]
  | [s0, s1, s2] => [s0 * 4 + s1 / 16, s1 % 16 * 16 + s2 / 4]
  | s0 :: s1 :: s2 :: s3 :: rest =>
      (s0 * 4 + s1 / 16) :: (s1 % 16 * 16 + s2 / 4) :: (s2 % 4 * 64 + s3) ::
        b64Unsextets rest
  | _ => []

/-- The fixed marker the code prepends to every generated key string. -/
def keyTag : String := "api-sentinel_pk_"

/-- `secrets.token_urlsafe(16)`: urlsafe-base64 text of the 16 random bytes
`rnd` drawn from the operating system's CSPRNG (the randomness is the model's
parameter). -/
def token_urlsafe16 (rnd : List Nat) : String :=
  String.mk ((b64Sextets rnd).map sextetChar)

/-- The generated key string
`f"api-sentinel_pk_\x7bsecrets.token_urlsafe(16)\x7d"`. -/
def mkKeyString (rnd : List Nat) : String := keyTag ++ token_urlsafe16 rnd

/-- Recovers the random bytes from a generated key string (witnesses that the
key string determines the randomness, i.e. generation is injective). -/
def decodeKeyString (s : String) : List Nat :=
  b64Unsextets ((s.toList.drop 16).map sextetVal)

/-- `models.SentinelKey(key_string=ks, project_id=pid)`: the remaining columns
take their declared defaults `monthly_budget_rupees=5000`, `is_active=True`. -/
def mkSentinelKey (kid : Nat) (ks : String) (pid : Nat) : SentinelKeyRec :=
  ⟨kid, ks, pid, 5000, true⟩

/-- Whether the second insert-and-commit of `create_project` (the sentinel-key
row) succeeds or fails; the model takes it as a parameter because the failure
is environmental (storage error). -/
inductive KeyStepOutcome where
  | success
  | failure
deriving DecidableEq

/-- `POST /projects` (src/main.py, `create_project`).  The handler commits the
new project row first (`db.add(new_project); db.commit()`), then in a second,
separate transaction inserts and commits the sentinel key.  The returned pair
is (committed store after the handler ends, response if it succeeded): when
the key step fails, the first commit has already made the project durable. -/
def create_project (db : DB) (name : String) (ownerId npid nkid : Nat)
    (rnd : List Nat) (keyStep : KeyStepOutcome) : DB × Option ProjectResponse :=
  let db1 : DB := { db with projects := db.projects ++ [⟨npid, name, ownerId⟩] }
  match keyStep with
  | .failure => (db1, none)
  | .success =>
    let k := mkSentinelKey nkid (mkKeyString rnd) npid
    ({ db1 with sentinel_keys := db1.sentinel_keys ++ [k] },
     some ⟨npid, name, ownerId, k.key_string⟩)

/-! ## Helper lemmas -/

theorem daysInMonth_bounds (y m : Nat) : 28 ≤ daysInMonth y m ∧ daysInMonth y m ≤ 31 := by
  unfold daysInMonth
  split
  · split <;> omega
  · split <;> omega

theorem rollForward_succ (fuel y m d : Nat) :
    rollForward (fuel + 1) y m d =
      if d ≤ daysInMonth y m then (y, m, d)
      else if m == 12 then rollForward fuel (y + 1) 1 (d - daysInMonth y m)
      else rollForward fuel y (m + 1) (d - daysInMonth y m) := rfl

theorem rollForward33 (y m : Nat) (h1 : 1 ≤ m) (h2 : m ≤ 12) :
    rollForward 33 y m 33 =
      if m = 12 then (y + 1, 1, 33 - daysInMonth y m)
      else (y, m + 1, 33 - daysInMonth y m) := by
  obtain ⟨hge, hle⟩ := daysInMonth_bounds y m
  obtain ⟨hge2, hle2⟩ := daysInMonth_bounds y (m + 1)
  obtain ⟨hge3, hle3⟩ := daysInMonth_bounds (y + 1) 1
  rw [rollForward_succ, if_neg (by omega)]
  by_cases hm : m = 12
  · rw [if_pos (by simp [hm]), if_pos hm, rollForward_succ, if_pos (by omega)]
  · rw [if_neg (by simp [hm]), if_neg hm, rollForward_succ, if_pos (by omega)]

theorem replaceDay1_addDays32 (t : PyDateTime) (h1 : 1 ≤ t.month) (h2 : t.month ≤ 12) :
    replaceDay1 (addDays (startOfMonth t) 32) = firstOfNextMonth t := by
  have hr := rollForward33 t.year t.month h1 h2
  simp only [addDays, startOfMonth]
  norm_num
  rw [hr]
  by_cases hm : t.month = 12
  · rw [if_pos hm]
    simp [replaceDay1, firstOfNextMonth, hm]
  · rw [if_neg hm]
    simp [replaceDay1, firstOfNextMonth, hm]

theorem subOneSecond_firstInstant (y m : Nat) (h : 0 < m) :
    subOneSecond ⟨y, m + 1, 1, 0, 0, 0⟩ = ⟨y, m, daysInMonth y m, 23, 59, 59⟩ := by
  show (if m + 1 > 1
      then (⟨y, m + 1 - 1, daysInMonth y (m + 1 - 1), 23, 59, 59⟩ : PyDateTime)
      else ⟨y - 1, 12, 31, 23, 59, 59⟩) = _
  rw [if_pos (by omega)]
  simp

theorem subOneSecond_firstOfNextMonth (t : PyDateTime) (h1 : 1 ≤ t.month)
    (h2 : t.month ≤ 12) :
    subOneSecond (firstOfNextMonth t) = lastInstantOfMonth t := by
  obtain ⟨yy, mm, dd, hh, mi, ss⟩ := t
  simp only at h1 h2
  by_cases hm : mm = 12
  · subst hm
    rfl
  · have hb : firstOfNextMonth ⟨yy, mm, dd, hh, mi, ss⟩ = ⟨yy, mm + 1, 1, 0, 0, 0⟩ := by
      unfold firstOfNextMonth
      rw [if_neg (by simp [hm])]
    rw [hb, subOneSecond_firstInstant yy mm (by omega)]
    rfl

theorem pyOrZero_sqlSumCosts (xs : List UsageLogRec) :
    pyOrZero (sqlSumCosts xs) = (xs.map (fun l => l.cost_rupees)).sum := by
  cases xs with
  | nil => rfl
  | cons a l =>
    simp only [sqlSumCosts, pyOrZero]
    split
    · rename_i h
      exact h.symm
    · rfl

theorem current_usage_of_eq_windowUsage (db : DB) (kid : Nat) (som next : PyDateTime)
    (hall : ∀ l ∈ db.usage_logs, dtLt l.timestamp next = true) :
    current_usage_of db kid som = windowUsage db kid som next := by
  unfold current_usage_of windowUsage
  rw [pyOrZero_sqlSumCosts]
  have hf : db.usage_logs.filter (monthFilter kid som)
      = db.usage_logs.filter
          (fun l => l.sentinel_key_id == kid && dtLe som l.timestamp
            && dtLt l.timestamp next) := by
    apply List.filter_congr
    intro l hl
    unfold monthFilter
    rw [hall l hl, Bool.and_true]
  rw [hf]

theorem current_usage_of_append (db : DB) (l : UsageLogRec) (kid : Nat)
    (som : PyDateTime) :
    current_usage_of { db with usage_logs := db.usage_logs ++ [l] } kid som
      = current_usage_of db kid som
        + (if monthFilter kid som l = true then l.cost_rupees else 0) := by
  unfold current_usage_of
  rw [pyOrZero_sqlSumCosts, pyOrZero_sqlSumCosts]
  dsimp only
  rw [List.filter_append, List.map_append, List.sum_append]
  congr 1
  by_cases h : monthFilter kid som l = true
  · rw [if_pos h]
    simp [List.filter, h]
  · rw [if_neg h]
    simp [List.filter, Bool.eq_false_iff.mpr h]

theorem b64Unsextets_b64Sextets : ∀ (bytes : List Nat), (∀ b ∈ bytes, b < 256) →
    b64Unsextets (b64Sextets bytes) = bytes
  | [], _ => rfl
  | [b0], h => by
    have hb0 : b0 < 256 := h b0 (by simp)
    show [b0 / 4 * 4 + b0 % 4 * 16 / 16] = [b0]
    simp only [List.cons.injEq, and_true]
    omega
  | [b0, b1], h => by
    have hb0 : b0 < 256 := h b0 (by simp)
    have hb1 : b1 < 256 := h b1 (by simp)
    show [b0 / 4 * 4 + (b0 % 4 * 16 + b1 / 16) / 16,
          (b0 % 4 * 16 + b1 / 16) % 16 * 16 + b1 % 16 * 4 / 4] = [b0, b1]
    simp only [List.cons.injEq, and_true]
    omega
  | b0 :: b1 :: b2 :: rest, h => by
    have hb0 : b0 < 256 := h b0 (by simp)
    have hb1 : b1 < 256 := h b1 (by simp)
    have hb2 : b2 < 256 := h b2 (by simp)
    have ih := b64Unsextets_b64Sextets rest (fun b hb => h b (by simp [hb]))
    show (b0 / 4 * 4 + (b0 % 4 * 16 + b1 / 16) / 16)
        :: ((b0 % 4 * 16 + b1 / 16) % 16 * 16 + (b1 % 16 * 4 + b2 / 64) / 4)
        :: ((b1 % 16 * 4 + b2 / 64) % 4 * 64 + b2 % 64)
        :: b64Unsextets (b64Sextets rest) = b0 :: b1 :: b2 :: rest
    rw [ih]
    simp only [List.cons.injEq, and_true]
    exact ⟨by omega, by omega, by omega⟩

theorem b64Sextets_lt : ∀ (bytes : List Nat), (∀ b ∈ bytes, b < 256) →
    ∀ s ∈ b64Sextets bytes, s < 64
  | [], _ => by simp [b64Sextets]
  | [b0], h => by
    have hb0 : b0 < 256 := h b0 (by simp)
    simp only [b64Sextets, List.mem_cons, List.not_mem_nil, or_false]
    rintro s (rfl | rfl) <;> omega
  | [b0, b1], h => by
    have hb0 : b0 < 256 := h b0 (by simp)
    have hb1 : b1 < 256 := h b1 (by simp)
    simp only [b64Sextets, List.mem_cons, List.not_mem_nil, or_false]
    rintro s (rfl | rfl | rfl) <;> omega
  | b0 :: b1 :: b2 :: rest, h => by
    have hb0 : b0 < 256 := h b0 (by simp)
    have hb1 : b1 < 256 := h b1 (by simp)
    have hb2 : b2 < 256 := h b2 (by simp)
    have ih := b64Sextets_lt rest (fun b hb => h b (by simp [hb]))
    simp only [b64Sextets, List.mem_cons]
    rintro s (rfl | rfl | rfl | rfl | hs)
    · omega
    · omega
    · omega
    · omega
    · exact ih s hs

theorem sextetVal_sextetChar : ∀ n, n < 64 → sextetVal (sextetChar n) = n := by decide

theorem map_sextetVal_sextetChar (s : List Nat) (h : ∀ x ∈ s, x < 64) :
    (s.map sextetChar).map sextetVal = s := by
  induction s with
  | nil => rfl
  | cons a l ih =>
    simp only [List.map_cons, List.cons.injEq]
    exact ⟨sextetVal_sextetChar a (h a (by simp)),
           ih (fun x hx => h x (by simp [hx]))⟩

theorem keyTag_toList_length : keyTag.toList.length = 16 := by decide

theorem mkKeyString_toList (rnd : List Nat) :
    (mkKeyString rnd).toList = keyTag.toList ++ (b64Sextets rnd).map sextetChar := by
  unfold mkKeyString token_urlsafe16
  show (keyTag ++ String.mk ((b64Sextets rnd).map sextetChar)).data
    = keyTag.data ++ (b64Sextets rnd).map sextetChar
  rw [String.data_append]

theorem decodeKeyString_mkKeyString (rnd : List Nat) (h : ∀ b ∈ rnd, b < 256) :
    decodeKeyString (mkKeyString rnd) = rnd := by
  unfold decodeKeyString
  rw [mkKeyString_toList, ← keyTag_toList_length, List.drop_left,
    map_sextetVal_sextetChar _ (b64Sextets_lt rnd h)]
  exact b64Unsextets_b64Sextets rnd h

/-! ## Claim theorems -/

/-- Discriminator: is this error an HTTP error (as opposed to an uncaught
Python exception, which FastAPI surfaces as a 500 Internal Server Error)? -/
def isHttpError (e : PyError) : Bool :=
  match e with
  | .httpError _ _ => true
  | _ => false

/-- Store with one project owning one inactive key, used to exercise the
authorization failure paths of `report_usage`. -/
def dbC1 : DB := ⟨[⟨1, "p", 1⟩], [⟨1, "inactive-key", 1, 5000, false⟩], []⟩

/-- Claim C1 (code bug in `report_usage`): on an absent key and on an inactive
key the handler takes the rejection branch and appends nothing — but the
branch evaluates `HTTPException(status_code=401, details=...)`, whose
constructor has no `details` parameter, so a `TypeError` is raised instead of
the intended `HTTPException`; the client observes a 500, not a 401.  The
result is an error that is not an HTTP error in both cases. -/
theorem report_usage_bad_kwarg :
    report_usage dbC1 "no-such-key" 5 [] ⟨2025, 6, 10, 0, 0, 0⟩ 2
      = .error reportUsageAuthError ∧
    report_usage dbC1 "inactive-key" 5 [] ⟨2025, 6, 10, 0, 0, 0⟩ 2
      = .error reportUsageAuthError ∧
    isHttpError reportUsageAuthError = false :=
  ⟨rfl, rfl, rfl⟩

/-- Claim C2 counterexample: starting from an empty store, a `create_project`
run whose sentinel-key step fails leaves a committed store that contains the
new project and no sentinel key at all — the project was not rolled back, and
the committed state holds a Project without a SentinelKey. -/
theorem create_project_orphan_counterexample :
    (create_project ⟨[], [], []⟩ "foo" 1 1 1 [] .failure).1
      = ⟨[⟨1, "foo", 1⟩], [], []⟩ ∧
    projectKey (create_project ⟨[], [], []⟩ "foo" 1 1 1 [] .failure).1 ⟨1, "foo", 1⟩
      = none :=
  ⟨rfl, rfl⟩

/-- Claim C2 (amended): `create_project` commits the project row in a first
transaction and the sentinel-key row in a second one.  If the key step fails
after the project commit, the committed store keeps the new project and gains
no key (an orphan Project); only when both steps succeed does the store gain
both rows. -/
theorem create_project_two_transactions (db : DB) (name : String)
    (ownerId npid nkid : Nat) (rnd : List Nat) :
    (create_project db name ownerId npid nkid rnd .failure).1.projects
      = db.projects ++ [⟨npid, name, ownerId⟩] ∧
    (create_project db name ownerId npid nkid rnd .failure).1.sentinel_keys
      = db.sentinel_keys ∧
    (create_project db name ownerId npid nkid rnd .failure).2 = none ∧
    (create_project db name ownerId npid nkid rnd .success).1.projects
      = db.projects ++ [⟨npid, name, ownerId⟩] ∧
    (create_project db name ownerId npid nkid rnd .success).1.sentinel_keys
      = db.sentinel_keys ++ [mkSentinelKey nkid (mkKeyString rnd) npid] :=
  ⟨rfl, rfl, rfl, rfl, rfl⟩

/-- Store for the C3 counterexample: one event of cost 5 stamped at the first
instant of July 2025, while the query happens in June 2025. -/
def dbC3 : DB :=
  ⟨[⟨1, "p", 1⟩], [⟨1, "k", 1, 5000, true⟩],
   [⟨1, 1, 5, [], ⟨2025, 7, 1, 0, 0, 0⟩⟩]⟩

/-- Claim C3 counterexample: the aggregation query has no upper time bound
(`timestamp >= start_of_month` only), so an event stamped exactly at the
start of the next month is included: queried on 2025-06-15, `current_usage`
is 5 while the spec's half-open June window sums to 0. -/
theorem current_usage_no_upper_bound_counterexample :
    get_key_details dbC3 "k" ⟨2025, 6, 15, 0, 0, 0⟩ (167 / 2)
      = .ok ⟨1, 5000, 5, 167 / 2⟩ ∧
    windowUsage dbC3 1 (startOfMonth ⟨2025, 6, 15, 0, 0, 0⟩)
      (firstOfNextMonth ⟨2025, 6, 15, 0, 0, 0⟩) = 0 ∧
    (5 : Rat) ≠ 0 := by
  refine ⟨?_, ?_, by norm_num⟩ <;>
    norm_num +decide [get_key_details, lookupKey, dbC3, current_usage_of, monthFilter,
      sqlSumCosts, pyOrZero, dtLe, dtLt, dtVal, startOfMonth, firstOfNextMonth,
      windowUsage, List.find?_cons_of_pos, List.find?_cons_of_neg, List.find?_nil,
      List.filter_cons_of_pos, List.filter_cons_of_neg, List.filter_nil,
      List.sum_cons, List.sum_nil]

/-- Claim C3 (amended): the usage query of both stats endpoints filters only
by `timestamp >= start_of_month`, with no upper bound; for every store whose
events all carry timestamps strictly before the start of the month after
"now" (every store the system itself can produce, since timestamps are
server-set at insertion time), the `current_usage` returned by both
`get_key_details` and `get_project_stats` equals the spec's sum over the
half-open window from the start of the current month to the start of the
next. -/
theorem current_usage_eq_window_sum (db : DB) (x : String) (k : SentinelKeyRec)
    (now : PyDateTime) (rate : Rat) (pid uid : Nat) (p : ProjectRec)
    (hall : ∀ l ∈ db.usage_logs, dtLt l.timestamp (firstOfNextMonth now) = true)
    (hk : lookupKey db x = some k) (hact : k.is_active = true)
    (hf : db.projects.find? (fun q => q.id == pid && q.owner_id == uid) = some p)
    (hpk : projectKey db p = some k) :
    get_key_details db x now rate
      = .ok ⟨k.project_id, k.monthly_budget_rupees,
             windowUsage db k.id (startOfMonth now) (firstOfNextMonth now), rate⟩ ∧
    get_project_stats db pid uid now
      = .ok ⟨p.id, p.name, k.monthly_budget_rupees,
             windowUsage db k.id (startOfMonth now) (firstOfNextMonth now),
             startOfMonth now, usageEndDate now⟩ := by
  have hcu := current_usage_of_eq_windowUsage db k.id (startOfMonth now)
    (firstOfNextMonth now) hall
  constructor
  · unfold get_key_details
    rw [hk]
    simp [hact, hcu]
  · unfold get_project_stats
    rw [hf]
    simp only [hpk]
    rw [hcu]

/-- Store for the C3 witness: one in-window event of cost 7 in June 2025. -/
def dbC3w : DB :=
  ⟨[⟨1, "p", 1⟩], [⟨1, "k", 1, 5000, true⟩],
   [⟨1, 1, 7, [], ⟨2025, 6, 2, 0, 0, 0⟩⟩]⟩

/-- Witness for C3 (amended) at a concrete store and query time. -/
theorem current_usage_eq_window_sum_witness :
    get_key_details dbC3w "k" ⟨2025, 6, 15, 0, 0, 0⟩ (167 / 2)
      = .ok ⟨1, 5000,
             windowUsage dbC3w 1 (startOfMonth ⟨2025, 6, 15, 0, 0, 0⟩)
               (firstOfNextMonth ⟨2025, 6, 15, 0, 0, 0⟩), 167 / 2⟩ ∧
    get_project_stats dbC3w 1 1 ⟨2025, 6, 15, 0, 0, 0⟩
      = .ok ⟨1, "p", 5000,
             windowUsage dbC3w 1 (startOfMonth ⟨2025, 6, 15, 0, 0, 0⟩)
               (firstOfNextMonth ⟨2025, 6, 15, 0, 0, 0⟩),
             startOfMonth ⟨2025, 6, 15, 0, 0, 0⟩,
             usageEndDate ⟨2025, 6, 15, 0, 0, 0⟩⟩ :=
  current_usage_eq_window_sum dbC3w "k" ⟨1, "k", 1, 5000, true⟩
    ⟨2025, 6, 15, 0, 0, 0⟩ (167 / 2) 1 1 ⟨1, "p", 1⟩
    (by decide) (by rfl) (by rfl) (by rfl) (by rfl)

/-- Store for the C4 counterexample: one active key, empty ledger. -/
def dbC4 : DB := ⟨[⟨1, "p", 1⟩], [⟨1, "k", 1, 5000, true⟩], []⟩

/-- The store after the negative-cost report is accepted. -/
def dbC4' : DB :=
  ⟨[⟨1, "p", 1⟩], [⟨1, "k", 1, 5000, true⟩],
   [⟨2, 1, -10, [], ⟨2025, 6, 10, 0, 0, 0⟩⟩]⟩

/-- Claim C4 counterexample: `UsageCreate` places no lower bound on `cost`,
so a report with cost -10 is accepted (`202`), and the `current_usage`
returned by a stats query drops from 0 to -10 — strictly decreasing within
the month, refuting monotonicity as claimed for every accepted report. -/
theorem usage_monotone_counterexample :
    report_usage dbC4 "k" (-10) [] ⟨2025, 6, 10, 0, 0, 0⟩ 2 = .ok dbC4' ∧
    get_key_details dbC4 "k" ⟨2025, 6, 10, 0, 0, 0⟩ 83 = .ok ⟨1, 5000, 0, 83⟩ ∧
    get_key_details dbC4' "k" ⟨2025, 6, 10, 0, 0, 0⟩ 83 = .ok ⟨1, 5000, -10, 83⟩ ∧
    (-10 : Rat) < 0 := by
  refine ⟨by rfl, by rfl, ?_, by norm_num⟩
  norm_num +decide [get_key_details, lookupKey, dbC4', current_usage_of, monthFilter,
    sqlSumCosts, pyOrZero, dtLe, dtVal, startOfMonth, List.find?_cons_of_pos,
    List.find?_nil, List.filter_cons_of_pos, List.filter_nil, List.sum_cons,
    List.sum_nil]

/-- Claim C4 (amended): when the reported cost is non-negative, accepting a
usage report never decreases the `current_usage` a stats query returns: for
any key queried before and after the accepted report (within the same month
window), the later value is at least the earlier one. -/
theorem usage_monotone_nonneg (db db2 : DB) (x x2 : String) (cost : Rat)
    (md : List (String × String)) (now now2 : PyDateTime) (nid : Nat) (rate : Rat)
    (d1 d2 : SentinelKeyDetails)
    (hc : 0 ≤ cost)
    (hrep : report_usage db x cost md now nid = .ok db2)
    (h1 : get_key_details db x2 now2 rate = .ok d1)
    (h2 : get_key_details db2 x2 now2 rate = .ok d2) :
    d1.current_usage ≤ d2.current_usage := by
  unfold report_usage at hrep
  cases hl : lookupKey db x with
  | none =>
    rw [hl] at hrep
    exact absurd hrep (by simp)
  | some k =>
    rw [hl] at hrep
    dsimp only at hrep
    by_cases hact : k.is_active
    · rw [hact] at hrep
      simp only [Bool.not_true, Bool.false_eq_true, if_false, Except.ok.injEq] at hrep
      have hkeys : db2.sentinel_keys = db.sentinel_keys := by
        rw [hrep.symm]
      have hlook : lookupKey db2 x2 = lookupKey db x2 := by
        unfold lookupKey
        rw [hkeys]
      unfold get_key_details at h1 h2
      rw [hlook] at h2
      cases hl2 : lookupKey db x2 with
      | none =>
        rw [hl2] at h1
        exact absurd h1 (by simp)
      | some k2 =>
        rw [hl2] at h1 h2
        dsimp only at h1 h2
        by_cases hact2 : k2.is_active
        · rw [hact2] at h1 h2
          simp only [Bool.not_true, Bool.false_eq_true, if_false,
            Except.ok.injEq] at h1 h2
          rw [h1.symm, h2.symm]
          dsimp only
          rw [hrep.symm, current_usage_of_append]
          have hnn : (0 : Rat) ≤
              (if monthFilter k2.id (startOfMonth now2) ⟨nid, k.id, cost, md, now⟩ = true
               then (⟨nid, k.id, cost, md, now⟩ : UsageLogRec).cost_rupees else 0) := by
            split
            · exact hc
            · exact le_refl 0
          linarith
        · rw [Bool.eq_false_iff.mpr hact2] at h1
          simp only [Bool.not_false, if_true] at h1
          exact absurd h1 (by simp)
    · rw [Bool.eq_false_iff.mpr hact] at hrep
      simp only [Bool.not_false, if_true] at hrep
      exact absurd hrep (by simp)

/-- Witness for C4 (amended): a report of cost 10 against a fresh key; the
stats values before and after are compared symbolically. -/
theorem usage_monotone_nonneg_witness :
    (⟨1, 5000, current_usage_of dbC4 1 (startOfMonth ⟨2025, 6, 10, 0, 0, 0⟩), 83⟩ :
        SentinelKeyDetails).current_usage ≤
    (⟨1, 5000,
      current_usage_of
        { dbC4 with usage_logs := dbC4.usage_logs ++ [⟨2, 1, 10, [], ⟨2025, 6, 10, 0, 0, 0⟩⟩] }
        1 (startOfMonth ⟨2025, 6, 10, 0, 0, 0⟩), 83⟩ :
        SentinelKeyDetails).current_usage :=
  usage_monotone_nonneg dbC4
    { dbC4 with usage_logs := dbC4.usage_logs ++ [⟨2, 1, 10, [], ⟨2025, 6, 10, 0, 0, 0⟩⟩] }
    "k" "k" 10 [] ⟨2025, 6, 10, 0, 0, 0⟩ ⟨2025, 6, 10, 0, 0, 0⟩ 2 83 _ _
    (by norm_num) (by rfl) (by rfl) (by rfl)

/-- Store for the C5 witness: one inactive key. -/
def dbC5 : DB := ⟨[⟨1, "p", 1⟩], [⟨1, "dead-key", 1, 5000, false⟩], []⟩

/-- Claim C5: for any store, an absent key string and an inactive key string
produce literally identical results from `report_usage` and from
`get_key_details` — the two causes are indistinguishable to the caller. -/
theorem auth_failure_indistinguishable (db : DB) (x1 x2 : String)
    (k : SentinelKeyRec) (cost : Rat) (md : List (String × String))
    (now now2 : PyDateTime) (nid : Nat) (rate : Rat)
    (h1 : lookupKey db x1 = none) (h2 : lookupKey db x2 = some k)
    (hk : k.is_active = false) :
    report_usage db x1 cost md now nid = report_usage db x2 cost md now nid ∧
    get_key_details db x1 now2 rate = get_key_details db x2 now2 rate := by
  unfold report_usage get_key_details
  rw [h1, h2]
  simp [hk]

/-- Witness for C5 at a concrete store. -/
theorem auth_failure_indistinguishable_witness :
    report_usage dbC5 "missing" 5 [] ⟨2025, 6, 1, 0, 0, 0⟩ 2
      = report_usage dbC5 "dead-key" 5 [] ⟨2025, 6, 1, 0, 0, 0⟩ 2 ∧
    get_key_details dbC5 "missing" ⟨2025, 6, 1, 0, 0, 0⟩ 83
      = get_key_details dbC5 "dead-key" ⟨2025, 6, 1, 0, 0, 0⟩ 83 :=
  auth_failure_indistinguishable dbC5 "missing" "dead-key"
    ⟨1, "dead-key", 1, 5000, false⟩ 5 [] ⟨2025, 6, 1, 0, 0, 0⟩
    ⟨2025, 6, 1, 0, 0, 0⟩ 2 83 (by rfl) (by rfl) (by rfl)

/-- Claim C7: a failed exchange-rate refresh attempt (missing credential,
request error, or a response without a usable INR rate) leaves both fields of
the cache exactly as they were; the refresh function is total, so no error
reaches readers of the cache through it. -/
theorem fetch_failure_leaves_cache (out : FetchOutcome) (now : PyDateTime)
    (c : ExchangeRateCache) (h : fetchFailed out = true) :
    (fetch_and_cache_exchange_rate out now c).rate = c.rate ∧
    (fetch_and_cache_exchange_rate out now c).last_fetched = c.last_fetched := by
  cases out with
  | missingApiKey => exact ⟨rfl, rfl⟩
  | requestError => exact ⟨rfl, rfl⟩
  | responseOk r =>
    cases r with
    | none => exact ⟨rfl, rfl⟩
    | some v => exact absurd h (by simp [fetchFailed])

/-- Witness for C7: a network failure against the startup cache. -/
theorem fetch_failure_leaves_cache_witness :
    (fetch_and_cache_exchange_rate .requestError ⟨2025, 6, 1, 0, 0, 0⟩ initialCache).rate
      = initialCache.rate ∧
    (fetch_and_cache_exchange_rate .requestError ⟨2025, 6, 1, 0, 0, 0⟩
        initialCache).last_fetched
      = initialCache.last_fetched :=
  fetch_failure_leaves_cache .requestError ⟨2025, 6, 1, 0, 0, 0⟩ initialCache (by rfl)

/-- Store for the C6 scenario: key "k1" has three usage events in June 2025
costing 100, 250.5 and 49.5 and two in May 2025 costing 1000 each; key "k2"
has no events at all. -/
def dbC6 : DB :=
  ⟨[⟨1, "p1", 1⟩, ⟨2, "p2", 1⟩],
   [⟨1, "k1", 1, 5000, true⟩, ⟨2, "k2", 2, 5000, true⟩],
   [⟨1, 1, 100, [], ⟨2025, 6, 5, 9, 0, 0⟩⟩,
    ⟨2, 1, (501 : Rat) / 2, [], ⟨2025, 6, 10, 14, 30, 0⟩⟩,
    ⟨3, 1, (99 : Rat) / 2, [], ⟨2025, 6, 20, 23, 59, 59⟩⟩,
    ⟨4, 1, 1000, [], ⟨2025, 5, 3, 0, 0, 0⟩⟩,
    ⟨5, 1, 1000, [], ⟨2025, 5, 31, 23, 59, 59⟩⟩]⟩

/-- Claim C6: queried on 2025-06-25, key "k1" reports `current_usage` 400.0
(100 + 250.5 + 49.5), unaffected by last month's two events of 1000 each, and
key "k2" with no events in the window reports 0 as a normal success, not an
error. -/
theorem usage_scenario_values :
    get_key_details dbC6 "k1" ⟨2025, 6, 25, 12, 0, 0⟩ (167 / 2)
      = .ok ⟨1, 5000, 400, 167 / 2⟩ ∧
    get_key_details dbC6 "k2" ⟨2025, 6, 25, 12, 0, 0⟩ (167 / 2)
      = .ok ⟨2, 5000, 0, 167 / 2⟩ := by
  constructor <;>
    norm_num +decide [get_key_details, lookupKey, dbC6, current_usage_of, monthFilter,
      sqlSumCosts, pyOrZero, dtLe, dtVal, startOfMonth, List.find?_cons_of_pos,
      List.find?_cons_of_neg, List.find?_nil, List.filter_cons_of_pos,
      List.filter_cons_of_neg, List.filter_nil, List.sum_cons, List.sum_nil]

/-- Claim C8: for every successful `get_project_stats` call at a valid UTC
"now", `usage_start_date` is the first instant of the current month and
`usage_end_date` equals the first instant of the next month minus one second,
which is the last (second-granularity) instant of the current month; this
holds for every month, including the December-to-January rollover. -/
theorem project_stats_window_bounds (db : DB) (pid uid : Nat) (now : PyDateTime)
    (stats : ProjectStats) (h1 : 1 ≤ now.month) (h2 : now.month ≤ 12)
    (h : get_project_stats db pid uid now = .ok stats) :
    stats.usage_start_date = ⟨now.year, now.month, 1, 0, 0, 0⟩ ∧
    stats.usage_end_date = subOneSecond (firstOfNextMonth now) ∧
    stats.usage_end_date = lastInstantOfMonth now := by
  have hend : usageEndDate now = lastInstantOfMonth now := by
    unfold usageEndDate
    rw [replaceDay1_addDays32 now h1 h2, subOneSecond_firstOfNextMonth now h1 h2]
  unfold get_project_stats at h
  cases hf : db.projects.find? (fun p => p.id == pid && p.owner_id == uid) with
  | none =>
    rw [hf] at h
    exact absurd h (by simp)
  | some p =>
    rw [hf] at h
    dsimp only at h
    cases hk : projectKey db p with
    | none =>
      rw [hk] at h
      exact absurd h (by simp)
    | some k =>
      rw [hk] at h
      dsimp only at h
      injection h with h
      subst h
      refine ⟨rfl, ?_, ?_⟩
      · show usageEndDate now = subOneSecond (firstOfNextMonth now)
        rw [hend, subOneSecond_firstOfNextMonth now h1 h2]
      · exact hend

/-- Witness for C8: a concrete December query, checking the rollover into
January of the next year. -/
theorem project_stats_window_bounds_witness :
    (⟨1, "p", 5000, 0, ⟨2025, 12, 1, 0, 0, 0⟩, ⟨2025, 12, 31, 23, 59, 59⟩⟩ :
        ProjectStats).usage_start_date = ⟨2025, 12, 1, 0, 0, 0⟩ ∧
    (⟨1, "p", 5000, 0, ⟨2025, 12, 1, 0, 0, 0⟩, ⟨2025, 12, 31, 23, 59, 59⟩⟩ :
        ProjectStats).usage_end_date =
      subOneSecond (firstOfNextMonth ⟨2025, 12, 15, 10, 30, 0⟩) ∧
    (⟨1, "p", 5000, 0, ⟨2025, 12, 1, 0, 0, 0⟩, ⟨2025, 12, 31, 23, 59, 59⟩⟩ :
        ProjectStats).usage_end_date =
      lastInstantOfMonth ⟨2025, 12, 15, 10, 30, 0⟩ :=
  project_stats_window_bounds ⟨[⟨1, "p", 7⟩], [⟨1, "k", 1, 5000, true⟩], []⟩ 1 7
    ⟨2025, 12, 15, 10, 30, 0⟩ _ (by decide) (by decide) (by rfl)

/-- Claim C9: every sentinel key produced by a successful project creation is
the fixed 16-character marker "api-sentinel_pk_" followed by the urlsafe
base64 text of 16 CSPRNG bytes — 8 * 16 = 128 bits of randomness, fully
recoverable from the key string (so distinct randomness yields distinct
keys) — and the created row carries the defaults `monthly_budget_rupees =
5000` and `is_active = true`. -/
theorem sentinel_key_creation (db : DB) (name : String) (ownerId npid nkid : Nat)
    (rnd : List Nat) (hlen : rnd.length = 16) (hbytes : ∀ b ∈ rnd, b < 256) :
    (create_project db name ownerId npid nkid rnd .success).2
      = some ⟨npid, name, ownerId, mkKeyString rnd⟩ ∧
    (create_project db name ownerId npid nkid rnd .success).1.sentinel_keys
      = db.sentinel_keys ++ [⟨nkid, mkKeyString rnd, npid, 5000, true⟩] ∧
    (mkKeyString rnd).toList.take 16 = keyTag.toList ∧
    8 * rnd.length = 128 ∧
    decodeKeyString (mkKeyString rnd) = rnd := by
  refine ⟨rfl, rfl, ?_, by rw [hlen], decodeKeyString_mkKeyString rnd hbytes⟩
  rw [mkKeyString_toList, ← keyTag_toList_length, List.take_left]

/-- Witness for C9 at sixteen concrete random bytes. -/
theorem sentinel_key_creation_witness :
    (create_project ⟨[], [], []⟩ "p" 1 1 1 (List.range 16) .success).2
      = some ⟨1, "p", 1, mkKeyString (List.range 16)⟩ ∧
    (create_project ⟨[], [], []⟩ "p" 1 1 1 (List.range 16) .success).1.sentinel_keys
      = [] ++ [⟨1, mkKeyString (List.range 16), 1, 5000, true⟩] ∧
    (mkKeyString (List.range 16)).toList.take 16 = keyTag.toList ∧
    8 * (List.range 16).length = 128 ∧
    decodeKeyString (mkKeyString (List.range 16)) = List.range 16 :=
  sentinel_key_creation ⟨[], [], []⟩ "p" 1 1 1 (List.range 16)
    (by decide) (by decide)

/-- Store for the C10 witness: a single orphan project with no key rows. -/
def dbC10 : DB := ⟨[⟨1, "orphan", 7⟩], [], []⟩

/-- Claim C10: when a project owned by the caller exists but has no sentinel
key (the orphan state a partial creation can leave), `get_project_stats` does
not answer NotFound — dereferencing the missing key raises `AttributeError`
(an internal error, not an HTTP error) — while `read_user_projects` lists the
same project with the literal key string "N/A" instead of failing. -/
theorem orphan_project_stats_behavior (db : DB) (pid uid : Nat) (p : ProjectRec)
    (now : PyDateTime)
    (hf : db.projects.find? (fun q => q.id == pid && q.owner_id == uid) = some p)
    (hk : projectKey db p = none) :
    get_project_stats db pid uid now
      = .error (.attributeError "NoneType object has no attribute id") ∧
    isHttpError (PyError.attributeError "NoneType object has no attribute id")
      = false ∧
    (⟨p.id, p.name, p.owner_id, "N/A"⟩ : ProjectResponse)
      ∈ read_user_projects db uid := by
  refine ⟨?_, rfl, ?_⟩
  · unfold get_project_stats
    rw [hf]
    dsimp only
    rw [hk]
  · have hmem : p ∈ db.projects := List.mem_of_find?_eq_some hf
    have hcond := List.find?_some hf
    have hown : (p.owner_id == uid) = true :=
      ((Bool.and_eq_true _ _).mp hcond).2
    unfold read_user_projects
    apply List.mem_map.mpr
    refine ⟨p, List.mem_filter.mpr ⟨hmem, hown⟩, ?_⟩
    dsimp only
    rw [hk]

/-- Witness for C10 at a concrete orphaned project. -/
theorem orphan_project_stats_behavior_witness :
    get_project_stats dbC10 1 7 ⟨2025, 6, 15, 0, 0, 0⟩
      = .error (.attributeError "NoneType object has no attribute id") ∧
    isHttpError (PyError.attributeError "NoneType object has no attribute id")
      = false ∧
    (⟨1, "orphan", 7, "N/A"⟩ : ProjectResponse) ∈ read_user_projects dbC10 7 :=
  orphan_project_stats_behavior dbC10 1 7 ⟨1, "orphan", 7⟩ ⟨2025, 6, 15, 0, 0, 0⟩
    (by rfl) (by rfl)

end ApiSentinel
